import Mathlib

/-!
Verification of the token-lifecycle and request-interceptor subsystem of the
tattoo-agency repository.  The request and response interceptors are embedded
from `src/lib/axios.ts`; the auth-store operations (the Zustand store
`src/store/authStore.ts` is imported by every page but its source file is not
part of the snapshot) are modelled from the specification; the registration
submit handler is embedded from `src/pages/Register.tsx`.
-/

namespace TattooAgency

/-- A user record as carried in the auth store: `id`, `username`, `email`. -/
structure User where
  id : String
  username : String
  email : String
deriving DecidableEq

/-- The session held by the auth store: tokens, user identity and the
authenticated flag.  `none` models a JS `null`/absent value. -/
structure AuthState where
  user : Option User
  accessToken : Option String
  refreshToken : Option String
  isAuthenticated : Bool
deriving DecidableEq

/-- JS truthiness of a nullable string: `null` and the empty string are falsy.
Every presence test in the source (`if (accessToken)`, `if (!refreshToken)`
in `src/lib/axios.ts`; `if (access && refresh)` in the pages) is such a
truthiness test, so this is what "the token is present" means to the code. -/
def truthy : Option String → Bool
  | none => false
  | some s => s != ""

/-- Modelled from the spec: `src/store/authStore.ts` is not in the snapshot;
spec section 4.1 describes the store.  The empty, unauthenticated session. -/
def emptySession : AuthState := ⟨none, none, none, false⟩

/-- Modelled from the spec (4.1): `setAuth(user, accessToken, refreshToken)`
atomically replaces the full session and marks it authenticated. -/
def setAuth (u : User) (a r : String) (_s : AuthState) : AuthState :=
  ⟨some u, some a, some r, true⟩

/-- Modelled from the spec (4.1): `updateAccessToken(accessToken)` replaces
only the access token, leaving refresh token and user untouched. -/
def updateAccessToken (a : String) (s : AuthState) : AuthState :=
  { s with accessToken := some a }

/-- Modelled from the spec (4.1): `clear()` resets to the unauthenticated
empty session. -/
def clearAuth (_s : AuthState) : AuthState := emptySession

/-- Modelled from the spec (4.1 and 6): the store keeps the session in process
memory (`mem`) and mirrors it to a single durable-storage record (`disk`)
on every mutation; `disk = none` models an absent or blanked record. -/
structure Store where
  mem : AuthState
  disk : Option AuthState
deriving DecidableEq

/-- Modelled from the spec (4.1): `get()` returns the in-memory session. -/
def Store.get (st : Store) : AuthState := st.mem

/-- Modelled from the spec (4.1): the store's `setAuth` replaces the session
and persists it to durable storage. -/
def Store.setAuth (st : Store) (u : User) (a r : String) : Store :=
  let s := TattooAgency.setAuth u a r st.mem
  ⟨s, some s⟩

/-- Modelled from the spec (6): at process start the store rehydrates from the
durable record, or starts from the empty session when none exists. -/
def rehydrate (disk : Option AuthState) : AuthState := disk.getD emptySession

/-- The per-request configuration seen by the interceptors of
`src/lib/axios.ts`: the request URL, the `Authorization` header slot, and the
`_retry` marker the response interceptor attaches to a request it has already
retried (an absent marker is falsy, modelled as `false`). -/
structure Config where
  url : String
  authorization : Option String
  _retry : Bool
deriving DecidableEq

/-- The axios error handed to the response-error interceptor: the config of
the failed request (`error.config`) and `error.response?.status`, which is
`none` when no response arrived at all (network failure, timeout). -/
structure AxiosError where
  config : Config
  status : Option Nat
deriving DecidableEq

/-- Static configuration of the intercepted client, `axios.create` on lines
4-11 of `src/lib/axios.ts`: base URL, the fixed 30000 ms send timeout, and
the content type header. -/
structure ClientConfig where
  baseURL : String
  timeout : Nat
  contentType : String
deriving DecidableEq

/-- The instance configuration from `axios.create` (lines 4-11). -/
def axiosInstanceConfig : ClientConfig :=
  ⟨"https://dashboard.cercus.app", 30000, "application/json"⟩

/-- The axios library default `timeout: 0`, meaning no timeout.  The bare
`axios.post` call on line 40 passes no config of its own, so it runs with
this default. -/
def axiosDefaultTimeout : Nat := 0

/-- The request interceptor (lines 14-20): read the current access token from
the store; when it is truthy, stamp `Bearer <token>` into the `Authorization`
header; otherwise return the config unchanged.  There is no error path. -/
def requestInterceptor (s : AuthState) (config : Config) : Config :=
  match s.accessToken with
  | some accessToken =>
      if accessToken != "" then
        { config with authorization := some ("Bearer " ++ accessToken) }
      else config
  | none => config

/-- A record of one call to the token-refresh endpoint as issued by the bare
`axios.post` on lines 40-43: its URL, the `refresh` field of its body, the
`Authorization` header it carries (the bare client attaches none), its
timeout (the axios default, 0 = none), and whether it went through the
intercepted instance (it does not). -/
structure RefreshCall where
  url : String
  bodyRefresh : String
  authorization : Option String
  timeout : Nat
  viaInstance : Bool
deriving DecidableEq

/-- The refresh call the handler issues for stored refresh token `r`:
`axios.post` of the refresh URL with body field `refresh := r`, through the
bare global client — no `Authorization` header, default timeout, and no
interceptors. -/
def mkRefreshCall (r : String) : RefreshCall :=
  ⟨"https://dashboard.cercus.app/refresh/", r, none, axiosDefaultTimeout, false⟩

/-- What the response-error interceptor finally does with the failed request:
re-send it through the instance (`return axiosInstance(originalRequest)`,
line 48) or propagate the error (`return Promise.reject(error)`). -/
inductive Disposition where
  | resend (config : Config)
  | reject (error : AxiosError)
deriving DecidableEq

/-- Observable side effects of one run of the response-error interceptor: the
refresh calls it issued, in order, and the value it assigned to
`window.location.href`, if any. -/
structure Effects where
  refreshCalls : List RefreshCall
  redirect : Option String
deriving DecidableEq

/-- Result of one run of the response-error interceptor: the session state it
leaves behind, its observable effects, and the request's disposition. -/
structure HandlerResult where
  state : AuthState
  effects : Effects
  disposition : Disposition
deriving DecidableEq

/-- Line 29, `originalRequest._retry = true`: the mutation of the config
object carried inside the error. -/
def setRetry (e : AxiosError) : AxiosError :=
  { e with config := { e.config with _retry := true } }

/-- The response-error interceptor (lines 23-58 of `src/lib/axios.ts`), run
against session `s`, with the network's answer to a refresh call with body
field `refresh := r` given by `refreshNet r` — `Except.ok access` for a
successful response carrying the new access token, `Except.error st` for a
failed call with response status `st` (the catch on line 49 ignores it).

On a 401 whose request has not been retried: mark the request retried; with
no truthy refresh token, clear the session, redirect to `/login` and reject
with the original error; otherwise issue one refresh call — on success write
the new access token to the store, stamp it into the request and re-send the
request through the instance; on failure clear the session, redirect and
reject with the original error.  Any other error is rejected untouched. -/
def responseErrorInterceptor (refreshNet : String → Except (Option Nat) String)
    (s : AuthState) (error : AxiosError) : HandlerResult :=
  if error.status == some 401 && !error.config._retry then
    let error := setRetry error
    match s.refreshToken with
    | none => ⟨clearAuth s, ⟨[], some "/login"⟩, .reject error⟩
    | some refreshToken =>
        if refreshToken == "" then
          ⟨clearAuth s, ⟨[], some "/login"⟩, .reject error⟩
        else
          match refreshNet refreshToken with
          | .ok access =>
              ⟨updateAccessToken access s,
               ⟨[mkRefreshCall refreshToken], none⟩,
               .resend { error.config with
                          authorization := some ("Bearer " ++ access) }⟩
          | .error _ =>
              ⟨clearAuth s, ⟨[mkRefreshCall refreshToken], some "/login"⟩,
               .reject error⟩
  else ⟨s, ⟨[], none⟩, .reject error⟩

/-- Sequential processing of a batch of failed responses, each handled by the
response-error interceptor against the session state the previous handler
left behind.  `src/lib/axios.ts` keeps no cross-request state — there is no
module-level refresh promise or waiter queue — so the refresh calls of a
batch are exactly the concatenation of the calls each handler makes on its
own, under every interleaving of the handlers. -/
def processBatch (refreshNet : String → Except (Option Nat) String) :
    AuthState → List AxiosError →
      AuthState × List RefreshCall × List Disposition
  | s, [] => (s, [], [])
  | s, e :: rest =>
      let r₁ := responseErrorInterceptor refreshNet s e
      let r₂ := processBatch refreshNet r₁.state rest
      (r₂.1, r₁.effects.refreshCalls ++ r₂.2.1, r₁.disposition :: r₂.2.2)

/-- The form values submitted by the registration page. -/
structure RegisterValues where
  username : String
  email : String
  password : String
deriving DecidableEq

/-- The fields of a successful `POST /register/` response body that
`Register.tsx` destructures: `access`, `refresh`, `user`. -/
structure RegisterResponse where
  access : Option String
  refresh : Option String
  user : Option User
deriving DecidableEq

/-- The success path of `onSubmit` in `src/pages/Register.tsx` (lines 27-44):
when both tokens in the response are truthy, establish the session via
`setAuth` — with a fallback user object built from the form values when the
response carries none — and navigate to `/dashboard`; otherwise leave the
store untouched, report registration as successful, and navigate to
`/login`.  Returns the store and the navigation target. -/
def registerOnSubmit (st : Store) (values : RegisterValues)
    (data : RegisterResponse) : Store × String :=
  if truthy data.access && truthy data.refresh then
    let userObj := data.user.getD ⟨"", values.username, values.email⟩
    (st.setAuth userObj (data.access.getD "") (data.refresh.getD ""),
     "/dashboard")
  else
    (st, "/login")

/-- A concrete authenticated session used by concrete runs. -/
def sessionEx : AuthState :=
  ⟨some ⟨"1", "ada", "ada@example.com"⟩, some "A0", some "R0", true⟩

/-- A concrete session whose refresh token is absent. -/
def sessionNoRefreshEx : AuthState :=
  ⟨some ⟨"1", "ada", "ada@example.com"⟩, some "A0", none, true⟩

/-- A concrete fresh (never-retried) request config. -/
def cfgEx : Config := ⟨"/artist_availability/", none, false⟩

/-- A concrete 401 error on a fresh request. -/
def err1Ex : AxiosError := ⟨⟨"/artist_availability/", some "Bearer A0", false⟩, some 401⟩

/-- A second, distinct concrete 401 error on a fresh request. -/
def err2Ex : AxiosError := ⟨⟨"/calendar/", some "Bearer A0", false⟩, some 401⟩

/-- A concrete 401 error on a request that was already retried once. -/
def errRetriedEx : AxiosError := ⟨⟨"/artist_availability/", some "Bearer T1", true⟩, some 401⟩

/-- A concrete transport error: no response arrived, so no status. -/
def errTimeoutEx : AxiosError := ⟨⟨"/artist_availability/", some "Bearer A0", false⟩, none⟩

/-- A refresh endpoint that always succeeds, answering with a token derived
from the submitted refresh token. -/
def refreshNetOk : String → Except (Option Nat) String :=
  fun r => .ok ("T_" ++ r)

/-- A refresh endpoint that always fails with a 401 response. -/
def refreshNet401 : String → Except (Option Nat) String :=
  fun _ => .error (some 401)

/-- Success path of the response-error interceptor, shared by several results
below: for a 401-failed, not-yet-retried request, a present refresh token and
a succeeding refresh endpoint, the handler issues one refresh call, writes
the returned token to the session, and re-sends the request marked retried
and stamped with the new bearer token. -/
theorem responseErrorInterceptor_ok_eq
    (refreshNet : String → Except (Option Nat) String)
    (s : AuthState) (e : AxiosError) (r a : String)
    (h401 : e.status = some 401) (hretry : e.config._retry = false)
    (hr : s.refreshToken = some r) (hne : r ≠ "")
    (hok : refreshNet r = .ok a) :
    responseErrorInterceptor refreshNet s e =
      ⟨updateAccessToken a s, ⟨[mkRefreshCall r], none⟩,
       .resend
         { e.config with
           _retry := true,
           authorization := some ("Bearer " ++ a) }⟩ := by
  simp [responseErrorInterceptor, setRetry, h401, hretry, hr, hne, hok]

/-- C3: the request interceptor attaches the current access token as a bearer
`Authorization` header exactly when the session's access token is present
(truthy, i.e. a non-null, non-empty string — the code's presence test); when
it is not, the request passes through unchanged (unauthenticated, with no
error path), and the interceptor's output never depends on the refresh
token, which is therefore never attached. -/
theorem c3_attach_iff_present (s : AuthState) (c : Config) :
    (truthy s.accessToken = false → requestInterceptor s c = c) ∧
    (∀ t, s.accessToken = some t → t ≠ "" →
      requestInterceptor s c =
        { c with authorization := some ("Bearer " ++ t) }) ∧
    (∀ r, requestInterceptor { s with refreshToken := r } c =
      requestInterceptor s c) := by
  refine ⟨?_, ?_, ?_⟩
  · intro h
    cases hs : s.accessToken with
    | none => simp [requestInterceptor, hs]
    | some t =>
        simp only [truthy, hs, bne_iff_ne, ne_eq, decide_eq_false_iff_not,
          not_not] at h
        simp [requestInterceptor, hs, h]
  · intro t ht hne
    simp [requestInterceptor, ht, hne]
  · intro r
    simp [requestInterceptor]

/-- Witness for C3 at a concrete session and request. -/
theorem c3_witness :
    requestInterceptor sessionEx cfgEx =
      { cfgEx with authorization := some ("Bearer " ++ "A0") } :=
  (c3_attach_iff_present sessionEx cfgEx).2.1 "A0" rfl (by decide)

/-- C6: a response error that is not an authorization failure — in particular
a transport error carrying no response status at all — is propagated to the
caller unchanged: no refresh call is issued, no redirect happens, and the
session state is left untouched. -/
theorem c6_transport_error (refreshNet : String → Except (Option Nat) String)
    (s : AuthState) (e : AxiosError) (h : e.status ≠ some 401) :
    responseErrorInterceptor refreshNet s e = ⟨s, ⟨[], none⟩, .reject e⟩ := by
  simp [responseErrorInterceptor, h]

/-- Witness for C6: a concrete timed-out request (no response status) is
rejected as-is with no refresh call, no redirect and an unchanged session. -/
theorem c6_witness :
    responseErrorInterceptor refreshNetOk sessionEx errTimeoutEx =
      ⟨sessionEx, ⟨[], none⟩, .reject errTimeoutEx⟩ :=
  c6_transport_error refreshNetOk sessionEx errTimeoutEx (by decide)

/-- C8: after `setAuth(u, a, r)` the store's `get` returns the session holding
exactly `u`, `a`, `r` with the authenticated flag set, that same session is
written to durable storage, and rehydrating from durable storage (a reload)
yields the same session back — the persistence round-trip law. -/
theorem c8_setAuth_roundtrip (st : Store) (u : User) (a r : String) :
    (st.setAuth u a r).get = ⟨some u, some a, some r, true⟩ ∧
    (st.setAuth u a r).disk = some ⟨some u, some a, some r, true⟩ ∧
    rehydrate (st.setAuth u a r).disk = (st.setAuth u a r).get :=
  ⟨rfl, rfl, rfl⟩

/-- C2: the automatic 401 retry happens at most once per request: the request
interceptor never changes the `_retry` marker, every request the response
interceptor re-sends carries `_retry = true`, and a 401 error whose request
already carries `_retry = true` is rejected unchanged as a final failure —
no refresh call, no redirect, no state change, and no re-send. -/
theorem c2_single_retry (refreshNet : String → Except (Option Nat) String)
    (s : AuthState) (e : AxiosError) (c : Config) :
    ((requestInterceptor s c)._retry = c._retry) ∧
    (∀ c', (responseErrorInterceptor refreshNet s e).disposition = .resend c' →
      c'._retry = true) ∧
    (e.config._retry = true →
      responseErrorInterceptor refreshNet s e = ⟨s, ⟨[], none⟩, .reject e⟩) := by
  refine ⟨?_, ?_, ?_⟩
  · cases hs : s.accessToken with
    | none => simp [requestInterceptor, hs]
    | some t =>
        simp only [requestInterceptor, hs]
        split <;> rfl
  · intro c' h
    unfold responseErrorInterceptor at h
    split at h
    · split at h
      · simp at h
      · split at h
        · simp at h
        · split at h
          · simp only [Disposition.resend.injEq] at h
            subst h
            rfl
          · simp at h
    · simp at h
  · intro hretry
    simp [responseErrorInterceptor, hretry]

/-- Witness for C2: a concrete already-retried request that receives a second
401 is rejected unchanged, with no refresh call and no state change. -/
theorem c2_witness :
    responseErrorInterceptor refreshNetOk sessionEx errRetriedEx =
      ⟨sessionEx, ⟨[], none⟩, .reject errRetriedEx⟩ :=
  (c2_single_retry refreshNetOk sessionEx errRetriedEx cfgEx).2.2 rfl

/-- C4: for a 401-failed request eligible for retry: with no truthy refresh
token no refresh call is attempted at all, and with a failing refresh call
exactly one is attempted; in both cases the request is rejected with its
original authorization error (not the refresh error), the session is cleared
to the empty session — tokens absent, unauthenticated — and the browser is
redirected to `/login`. -/
theorem c4_refresh_failure (refreshNet : String → Except (Option Nat) String)
    (s : AuthState) (e : AxiosError)
    (h401 : e.status = some 401) (hretry : e.config._retry = false) :
    (truthy s.refreshToken = false →
      responseErrorInterceptor refreshNet s e =
        ⟨emptySession, ⟨[], some "/login"⟩, .reject (setRetry e)⟩) ∧
    (∀ r st, s.refreshToken = some r → r ≠ "" → refreshNet r = .error st →
      responseErrorInterceptor refreshNet s e =
        ⟨emptySession, ⟨[mkRefreshCall r], some "/login"⟩,
         .reject (setRetry e)⟩) ∧
    (emptySession.accessToken = none ∧ emptySession.refreshToken = none ∧
      emptySession.isAuthenticated = false) := by
  refine ⟨?_, ?_, rfl, rfl, rfl⟩
  · intro h
    cases hs : s.refreshToken with
    | none => simp [responseErrorInterceptor, h401, hretry, hs, clearAuth]
    | some r =>
        rw [hs] at h
        have hr0 : r = "" := by simpa [truthy] using h
        subst hr0
        simp [responseErrorInterceptor, h401, hretry, hs, clearAuth]
  · intro r st hr hne herr
    simp [responseErrorInterceptor, h401, hretry, hr, hne, herr, clearAuth]

/-- Witness for C4: a concrete 401-failed request with no refresh token in the
session triggers no refresh call, is rejected with its original error, and
leaves a cleared session plus a redirect to `/login`. -/
theorem c4_witness :
    responseErrorInterceptor refreshNetOk sessionNoRefreshEx err1Ex =
      ⟨emptySession, ⟨[], some "/login"⟩, .reject (setRetry err1Ex)⟩ :=
  (c4_refresh_failure refreshNetOk sessionNoRefreshEx err1Ex rfl rfl).1
    (by decide)

/-- C5: on refresh success the handler issues exactly one refresh call — a
POST to `https://dashboard.cercus.app/refresh/` whose body's `refresh` field
is the stored refresh token — writes the returned access token to the store
via `updateAccessToken` (leaving the refresh token untouched), and re-sends
the triggering request (the sole waiter of this refresh call) exactly once,
marked retried and stamped with the new bearer token; the re-send's own
outcome then flows back to the original caller. -/
theorem c5_refresh_success (refreshNet : String → Except (Option Nat) String)
    (s : AuthState) (e : AxiosError) (r a : String)
    (h401 : e.status = some 401) (hretry : e.config._retry = false)
    (hr : s.refreshToken = some r) (hne : r ≠ "")
    (hok : refreshNet r = .ok a) :
    responseErrorInterceptor refreshNet s e =
      ⟨updateAccessToken a s, ⟨[mkRefreshCall r], none⟩,
       .resend
         { e.config with
           _retry := true,
           authorization := some ("Bearer " ++ a) }⟩ ∧
    (updateAccessToken a s).accessToken = some a ∧
    (updateAccessToken a s).refreshToken = s.refreshToken ∧
    (mkRefreshCall r).url = "https://dashboard.cercus.app/refresh/" ∧
    (mkRefreshCall r).bodyRefresh = r :=
  ⟨responseErrorInterceptor_ok_eq refreshNet s e r a h401 hretry hr hne hok,
   rfl, rfl, rfl, rfl⟩

/-- Witness for C5: a concrete 401-failed request with refresh token `R0` and
a succeeding refresh endpoint is re-sent once with the freshly returned
token, which is also written to the session. -/
theorem c5_witness :
    responseErrorInterceptor refreshNetOk sessionEx err1Ex =
      ⟨updateAccessToken ("T_" ++ "R0") sessionEx,
       ⟨[mkRefreshCall "R0"], none⟩,
       .resend
         { err1Ex.config with
           _retry := true,
           authorization := some ("Bearer " ++ ("T_" ++ "R0")) }⟩ :=
  (c5_refresh_success refreshNetOk sessionEx err1Ex "R0" ("T_" ++ "R0")
    rfl rfl rfl (by decide) rfl).1

/-- C9: on a successful registration response carrying both (truthy) tokens
the session is established via `setAuth` with exactly those tokens
(auto-login) and the app navigates to the dashboard; when the tokens are
absent from the response the store is left untouched — no session is
established — and registration is treated as successful without auto-login,
navigating to the login page. -/
theorem c9_register (st : Store) (v : RegisterValues) (u : Option User)
    (a r : String) (ha : a ≠ "") (hr : r ≠ "") :
    registerOnSubmit st v ⟨some a, some r, u⟩ =
      (st.setAuth (u.getD ⟨"", v.username, v.email⟩) a r, "/dashboard") ∧
    registerOnSubmit st v ⟨none, none, u⟩ = (st, "/login") := by
  constructor
  · simp [registerOnSubmit, truthy, ha, hr]
  · simp [registerOnSubmit, truthy]

/-- Witness for C9: a concrete registration response with both tokens present
establishes the session with those tokens and navigates to the dashboard. -/
theorem c9_witness :
    registerOnSubmit ⟨emptySession, none⟩ ⟨"ada", "ada@example.com", "pw"⟩
        ⟨some "A1", some "R1", none⟩ =
      (Store.setAuth ⟨emptySession, none⟩ ⟨"", "ada", "ada@example.com"⟩
        "A1" "R1", "/dashboard") := by
  have h := (c9_register ⟨emptySession, none⟩ ⟨"ada", "ada@example.com", "pw"⟩
    none "A1" "R1" (by decide) (by decide)).1
  simpa using h

/-- C1: the claim fails on the code.  Two requests that each receive a 401
while no refresh is outstanding issue two refresh calls — one each, not
exactly one: `src/lib/axios.ts` keeps no shared refresh promise and no
waiter queue, so nothing coalesces concurrent refreshes. -/
theorem c1_counterexample :
    (processBatch refreshNetOk sessionEx [err1Ex, err2Ex]).2.1.length = 2 ∧
    ¬ (processBatch refreshNetOk sessionEx [err1Ex, err2Ex]).2.1.length
        = 1 := by
  decide

/-- C1 (amended): there is no single-flight coordination — every 401-failed,
not-yet-retried request issues its own refresh call.  For a batch of N such
failures processed against a session with a present refresh token by a
refresh endpoint that answers successfully, exactly N refresh calls are
issued (one per request) and every request is re-sent with the token its own
refresh returned. -/
theorem c1_one_refresh_per_request
    (refreshNet : String → Except (Option Nat) String)
    (s : AuthState) (errors : List AxiosError)
    (hok : ∀ r, ∃ a, refreshNet r = .ok a)
    (hs : truthy s.refreshToken = true)
    (he : ∀ e ∈ errors, e.status = some 401 ∧ e.config._retry = false) :
    (processBatch refreshNet s errors).2.1.length = errors.length ∧
    ∀ d ∈ (processBatch refreshNet s errors).2.2,
      ∃ c, d = Disposition.resend c := by
  revert hs he
  induction errors generalizing s with
  | nil =>
      intro hs he
      simp [processBatch]
  | cons e rest ih =>
      intro hs he
      obtain ⟨h401, hretry⟩ := he e (List.mem_cons_self _ _)
      cases hr : s.refreshToken with
      | none =>
          rw [hr] at hs
          simp [truthy] at hs
      | some r =>
          have hne : r ≠ "" := by
            rw [hr] at hs
            simpa [truthy] using hs
          obtain ⟨a, ha⟩ := hok r
          have hstep :=
            responseErrorInterceptor_ok_eq refreshNet s e r a
              h401 hretry hr hne ha
          have he' : ∀ e' ∈ rest,
              e'.status = some 401 ∧ e'.config._retry = false :=
            fun e' h' => he e' (List.mem_cons_of_mem _ h')
          have hs' : truthy (updateAccessToken a s).refreshToken = true := by
            simpa [updateAccessToken] using hs
          obtain ⟨ihlen, ihres⟩ := ih (updateAccessToken a s) hs' he'
          constructor
          · simp only [processBatch, hstep, List.length_cons,
              List.length_append, List.length_singleton, List.length_nil,
              ihlen]
            omega
          · intro d hd
            simp only [processBatch, hstep, List.mem_cons] at hd
            rcases hd with rfl | hd
            · exact ⟨_, rfl⟩
            · exact ihres d hd

/-- Witness for C1 (amended): a concrete batch of two 401-failed requests
against a session with refresh token `R0` issues exactly two refresh
calls. -/
theorem c1_witness :
    (processBatch refreshNetOk sessionEx [err1Ex, err2Ex]).2.1.length =
      [err1Ex, err2Ex].length :=
  (c1_one_refresh_per_request refreshNetOk sessionEx [err1Ex, err2Ex]
    (fun r => ⟨"T_" ++ r, rfl⟩) (by decide) (by decide)).1

/-- C7: the claim fails on the code — the intercepted instance carries the
fixed 30000 ms send timeout, but the refresh call is issued through the bare
global client with the axios library default `timeout: 0`, i.e. no timeout,
so a hung refresh call never surfaces as a transport error.  Shown at a
concrete 401-failed request: the one refresh call it issues carries timeout
0, not the instance's 30000. -/
theorem c7_counterexample :
    axiosInstanceConfig.timeout = 30000 ∧
    (responseErrorInterceptor refreshNetOk sessionEx
        err1Ex).effects.refreshCalls =
      [⟨"https://dashboard.cercus.app/refresh/", "R0", none, 0, false⟩] ∧
    ¬ (0 = axiosInstanceConfig.timeout) := by
  refine ⟨rfl, by decide, by decide⟩

/-- C7 (amended): ordinary outgoing requests through the intercepted instance
are subject to the fixed 30000 ms send timeout, but every refresh call the
response-error interceptor issues goes through the bare axios client with
the library default timeout 0 — no timeout at all. -/
theorem c7_amended (refreshNet : String → Except (Option Nat) String)
    (s : AuthState) (e : AxiosError) :
    axiosInstanceConfig.timeout = 30000 ∧
    ∀ call ∈ (responseErrorInterceptor refreshNet s e).effects.refreshCalls,
      call.timeout = axiosDefaultTimeout ∧ axiosDefaultTimeout = 0 := by
  refine ⟨rfl, ?_⟩
  intro call hc
  unfold responseErrorInterceptor at hc
  split at hc
  · split at hc
    · simp at hc
    · split at hc
      · simp at hc
      · split at hc <;>
          · simp only [List.mem_singleton] at hc
            subst hc
            exact ⟨rfl, rfl⟩
  · simp at hc

/-- Witness for C7 (amended): the concrete refresh call issued for refresh
token `R0` has timeout 0. -/
theorem c7_witness : (mkRefreshCall "R0").timeout = 0 := by
  have h := (c7_amended refreshNetOk sessionEx err1Ex).2 (mkRefreshCall "R0")
    (by decide)
  exact h.1.trans h.2

/-- C10: every refresh call is issued through the bare axios client — it
carries no `Authorization` header and does not go through the intercepted
instance — and one run of the response-error interceptor issues at most one
refresh call; in particular a 401 answer to the refresh call itself lands in
the `catch`, rejecting the original request with a cleared session and no
second, recursive refresh. -/
theorem c10_bare_refresh (refreshNet : String → Except (Option Nat) String)
    (s : AuthState) (e : AxiosError) :
    (∀ call ∈ (responseErrorInterceptor refreshNet s e).effects.refreshCalls,
      call.authorization = none ∧ call.viaInstance = false) ∧
    (responseErrorInterceptor refreshNet s e).effects.refreshCalls.length
      ≤ 1 ∧
    (∀ r, e.status = some 401 → e.config._retry = false →
      s.refreshToken = some r → r ≠ "" → refreshNet r = .error (some 401) →
      responseErrorInterceptor refreshNet s e =
        ⟨emptySession, ⟨[mkRefreshCall r], some "/login"⟩,
         .reject (setRetry e)⟩) := by
  refine ⟨?_, ?_, ?_⟩
  · intro call hc
    unfold responseErrorInterceptor at hc
    split at hc
    · split at hc
      · simp at hc
      · split at hc
        · simp at hc
        · split at hc <;>
            · simp only [List.mem_singleton] at hc
              subst hc
              exact ⟨rfl, rfl⟩
    · simp at hc
  · unfold responseErrorInterceptor
    split
    · split
      · simp
      · split
        · simp
        · split <;> simp
    · simp
  · intro r h401 hretry hr hne herr
    simp [responseErrorInterceptor, h401, hretry, hr, hne, herr, clearAuth]

/-- Witness for C10: a concrete refresh call that itself fails with a 401 is
not retried — the original request is rejected after exactly one refresh
call, with the session cleared and a redirect to `/login`. -/
theorem c10_witness :
    responseErrorInterceptor refreshNet401 sessionEx err1Ex =
      ⟨emptySession, ⟨[mkRefreshCall "R0"], some "/login"⟩,
       .reject (setRetry err1Ex)⟩ :=
  (c10_bare_refresh refreshNet401 sessionEx err1Ex).2.2 "R0" rfl rfl rfl
    (by decide) rfl

end TattooAgency
